import Mathlib

/-!
# MesaLink `ssl` module: a shallow embedding

This development embeds the connection/context object model of the MesaLink
TLS library (`src/ssl/mod.rs`, `src/ssl/ssl.rs`) in Lean and proves the
specification's claims about it.

The TLS protocol engine (rustls), the DNS-name validator (webpki) and the
byte transport are external collaborators; they are represented by an
abstract operations record (`SessionOps`) and by predicate parameters, as
the specification treats them ("consumed as an abstract `Session`
capability").  The error-queue module (`err.rs`) is not part of the given
sources; its queue and error-code taxonomy are modelled from the
specification (sections 4.2 and 7).
-/

namespace Mesalink

/-- Transport (`std::io`) error kinds that the source distinguishes:
`WouldBlock`, `UnexpectedEof`, `NotConnected`, `InvalidData`, and a
catch-all for every other kind. -/
inductive IoErrorKind where
  | wouldBlock
  | unexpectedEof
  | notConnected
  | invalidData
  | otherKind
  deriving DecidableEq, Repr

/-- Modelled from the spec: the error-code taxonomy of section 7 (`err.rs`
is not among the given sources).  `ioError` wraps a mapped transport error
kind and `tlsError` wraps an opaque protocol-engine failure category. -/
inductive ErrorCode where
  | MesalinkErrorNone
  | MesalinkErrorZeroReturn
  | MesalinkErrorWantRead
  | MesalinkErrorWantWrite
  | MesalinkErrorBadFuncArg
  | MesalinkErrorPanic
  | MesalinkErrorNullPointer
  | MesalinkErrorMalformedObject
  | IoErrorUnexpectedEof
  | TLSErrorWebpkiBadDER
  | ioError (k : IoErrorKind)
  | tlsError (e : Nat)
  deriving DecidableEq, Repr

/-- Modelled from the spec: `ErrorCode::from(&io::Error)` of the missing
`err.rs`, mapping transport error kinds to error codes "including a
distinct `UnexpectedEof`" (section 7). -/
def ErrorCode.fromIo (k : IoErrorKind) : ErrorCode :=
  match k with
  | .unexpectedEof => .IoErrorUnexpectedEof
  | k => .ioError k

/-- Modelled from the spec: `ErrorCode::from(&TLSError)` of the missing
`err.rs`, mapping a protocol-engine failure category to an error code. -/
def ErrorCode.fromTls (e : Nat) : ErrorCode :=
  .tlsError e

/-- Modelled from the spec: an error record holds a kind (section 7); the
opaque source-location tag is irrelevant to every claim and omitted. -/
structure MesalinkError where
  code : ErrorCode
  deriving DecidableEq, Repr

/-- `MesalinkInnerResult<T>` of `err.rs`: the result type every inner API
implementation returns. -/
def MesalinkInnerResult (α : Type) : Type := Except MesalinkError α

/-- Modelled from the spec: the process-wide error queue; records are
"appended to a process-wide queue in arrival order" (section 3). -/
abbrev ErrorQueue : Type := List MesalinkError

/-- Modelled from the spec: `ErrorQueue::push_error` appends a record. -/
def ErrorQueue.push (q : ErrorQueue) (e : MesalinkError) : ErrorQueue :=
  q ++ [e]

/-- The three possible outcomes of running an inner API implementation
inside `panic::catch_unwind`: a success value, an application error, or a
caught panic (`ssl.rs` lines 444-456). -/
inductive InnerOutcome (α : Type) where
  | ok (a : α)
  | err (e : MesalinkError)
  | panicked
  deriving DecidableEq, Repr

/-- `check_inner_result!` (`ssl.rs` lines 444-456): run the inner
operation under `catch_unwind`; a panic becomes `Err(MesalinkErrorPanic)`;
an `Err` is pushed onto the error queue and the caller-supplied failure
sentinel is returned; an `Ok` value is returned untouched. -/
def check_inner_result {α : Type} (q : ErrorQueue) (inner : InnerOutcome α)
    (errRet : α) : α × ErrorQueue :=
  match inner with
  | .ok r => (r, q)
  | .err e => (errRet, q.push e)
  | .panicked => (errRet, q.push ⟨.MesalinkErrorPanic⟩)

/-- A heap object carrying the per-process magic tag as its first field
(the `magic: [u8; MAGIC_SIZE]` field of every MesaLink object). -/
structure TaggedObj (α : Type) where
  magic : Nat
  obj : α
  deriving DecidableEq, Repr

/-- A raw pointer as the foreign caller supplies it: either null or a
reference to memory holding a tagged object. -/
inductive RawPtr (α : Type) where
  | null
  | valid (o : TaggedObj α)
  deriving DecidableEq, Repr

/-- `check_magic` of the `MesalinkOpaquePointerType` trait: the object's
embedded tag equals the process tag. -/
def checkMagic {α : Type} (processMagic : Nat) (o : TaggedObj α) : Bool :=
  o.magic == processMagic

/-- `sanitize_ptr_for_mut_ref` (`ssl.rs` lines 426-438): null yields
`NullPointer`; a tag mismatch yields `MalformedObject`; otherwise the
checked object is produced. -/
def sanitize_ptr_for_mut_ref {α : Type} (processMagic : Nat)
    (ptr : RawPtr α) : MesalinkInnerResult (TaggedObj α) :=
  match ptr with
  | .null => .error ⟨.MesalinkErrorNullPointer⟩
  | .valid o =>
    match checkMagic processMagic o with
    | true => .ok o
    | false => .error ⟨.MesalinkErrorMalformedObject⟩

/-- `sanitize_ptr_for_ref` (`ssl.rs` lines 419-424): delegates to the
mutable-reference variant. -/
def sanitize_ptr_for_ref {α : Type} (processMagic : Nat)
    (ptr : RawPtr α) : MesalinkInnerResult (TaggedObj α) :=
  sanitize_ptr_for_mut_ref processMagic ptr

/-- `sanitize_const_ptr_for_ref` (`ssl.rs` lines 411-417): casts away
constness and delegates to the mutable-reference variant. -/
def sanitize_const_ptr_for_ref {α : Type} (processMagic : Nat)
    (ptr : RawPtr α) : MesalinkInnerResult (TaggedObj α) :=
  sanitize_ptr_for_mut_ref processMagic ptr

/-- The two protocol versions the library supports (`rustls`
`ProtocolVersion` values actually used by the source). -/
inductive ProtocolVersion where
  | tls12
  | tls13
  deriving DecidableEq, Repr

/-- The certificate verifier installed on a client configuration: either
the default webpki verifier or the permissive `NoServerAuth` verifier
(`ssl.rs` lines 129-140) that accepts any server identity. -/
inductive CertVerifier where
  | webpkiVerifier
  | noServerAuth
  deriving DecidableEq, Repr

/-- The client-role configuration: the fields of `rustls::ClientConfig`
the source observes or mutates. -/
structure ClientConfig where
  versions : List ProtocolVersion
  verifier : CertVerifier
  rootStoreSeeded : Bool
  cacheSize : Nat
  deriving DecidableEq, Repr

/-- The server-role configuration: the fields of `rustls::ServerConfig`
the source observes or mutates.  `identity` is the certified key installed
by `set_single_cert`. -/
structure ServerConfig where
  versions : List ProtocolVersion
  identity : Option (List Nat × Nat)
  ticketerEnabled : Bool
  cacheSize : Nat
  deriving DecidableEq, Repr

/-- `rustls::ClientConfig::new()`: fresh default configuration (defaults
of the external engine; the source immediately clears `versions`). -/
def ClientConfig.fresh : ClientConfig :=
  { versions := [.tls13, .tls12], verifier := .webpkiVerifier,
    rootStoreSeeded := false, cacheSize := 0 }

/-- `rustls::ServerConfig::new(NoClientAuth::new())`: fresh default
configuration. -/
def ServerConfig.fresh : ServerConfig :=
  { versions := [.tls13, .tls12], identity := none,
    ticketerEnabled := false, cacheSize := 0 }

/-- `CLIENT_CACHE_SIZE` (`ssl.rs` line 68). -/
def CLIENT_CACHE_SIZE : Nat := 32

/-- `SERVER_CACHE_SIZE` (`ssl.rs` line 69). -/
def SERVER_CACHE_SIZE : Nat := 128

/-- The payload of a `MESALINK_METHOD` object: its ordered protocol
version list (`ssl.rs` lines 109-112). -/
structure MESALINK_METHOD where
  versions : List ProtocolVersion
  deriving DecidableEq, Repr

/-- `MESALINK_CTX` (`ssl.rs` lines 185-191): client and server
configurations plus the independently set certificate chain and private
key (certificates and keys are abstract ids, parsing being external). -/
structure MESALINK_CTX where
  client_config : ClientConfig
  server_config : ServerConfig
  certificates : Option (List Nat)
  private_key : Option Nat
  deriving DecidableEq, Repr

/-- `MESALINK_CTX::new` (`ssl.rs` lines 202-232): build fresh client and
server configurations, clear their version lists and push exactly the
method's versions, install the bounded session caches, seed the client
root store, and enable server ticketing. -/
def MESALINK_CTX.new (method : MESALINK_METHOD) : MESALINK_CTX :=
  let client0 := ClientConfig.fresh
  let server0 := ServerConfig.fresh
  let client1 : ClientConfig :=
    { client0 with
      versions := method.versions
      cacheSize := CLIENT_CACHE_SIZE
      rootStoreSeeded := true }
  let server1 : ServerConfig :=
    { server0 with
      versions := method.versions
      cacheSize := SERVER_CACHE_SIZE
      ticketerEnabled := true }
  { client_config := client1, server_config := server1,
    certificates := none, private_key := none }

/-- `SSL_SUCCESS` (1). -/
def SSL_SUCCESS : Int := 1

/-- `SSL_FAILURE` (0). -/
def SSL_FAILURE : Int := 0

/-- `SSL_ERROR` (-1). -/
def SSL_ERROR : Int := -1

/-- The abstract `Session` capability consumed from the protocol engine
(spec section 6), together with the byte transport's operations as the
source uses them.  `σ` is the engine's session state, `τ` the transport
state.  `write_tls`/`read_tls` return the byte count and the two updated
states; `process_new_packets` returns an optional failure category plus
the updated session (the engine may queue alert records even on failure);
`readPlain` is the session's plaintext `read`; `flushTransport` is
`io.flush()`. -/
structure SessionOps (σ τ : Type) where
  wants_write : σ → Bool
  wants_read : σ → Bool
  is_handshaking : σ → Bool
  write_tls : σ → τ → Except IoErrorKind (Nat × σ × τ)
  read_tls : σ → τ → Except IoErrorKind (Nat × σ × τ)
  process_new_packets : σ → Option Nat × σ
  flushTransport : τ → Except IoErrorKind τ
  readPlain : σ → Nat → Except IoErrorKind (Nat × σ)
  get_negotiated_ciphersuite : σ → Option Nat
  get_protocol_version : σ → Option ProtocolVersion

/-- Result of draining the engine's pending output to the transport
(`while session.wants_write() { session.write_tls(io) }`): completion
with the accumulated byte count, a transport error, or fuel exhaustion
(`spin` — the source loop would still be running). -/
inductive DrainRes (σ τ : Type) where
  | ok (wrlen : Nat) (s : σ) (t : τ)
  | fail (e : IoErrorKind) (s : σ) (t : τ)
  | spin (s : σ) (t : τ)
  deriving Repr

/-- The `while session.wants_write()` drain loop of
`complete_handshake_io` (`ssl.rs` lines 1405-1409), fueled; `w` is the
byte count accumulated so far. -/
def drainWrites {σ τ : Type} (ops : SessionOps σ τ) :
    Nat → Nat → σ → τ → DrainRes σ τ
  | 0, w, s, t => if ops.wants_write s then .spin s t else .ok w s t
  | fuel + 1, w, s, t =>
    if ops.wants_write s then
      match ops.write_tls s t with
      | .ok (n, s1, t1) => drainWrites ops fuel (w + n) s1 t1
      | .error e => .fail e s t
    else .ok w s t

/-- The transport-read phase of `complete_handshake_io` (`ssl.rs` lines
1413-1421): when not yet at end-of-stream and the engine wants to read,
pull one chunk; zero bytes sets the end-of-stream flag, a positive count
is accumulated. -/
def hsReadPhase {σ τ : Type} (ops : SessionOps σ τ) (eof : Bool)
    (rdlen : Nat) (s : σ) (t : τ) :
    Except IoErrorKind (Bool × Nat × σ × τ) :=
  if eof = false && ops.wants_read s then
    match ops.read_tls s t with
    | .error e => .error e
    | .ok (0, s1, t1) => .ok (true, rdlen, s1, t1)
    | .ok (n + 1, s1, t1) => .ok (eof, rdlen + (n + 1), s1, t1)
  else .ok (eof, rdlen, s, t)

/-- Outcome of one iteration of the handshake driver loop: terminate with
a result, repeat with updated loop state, or an inner drain loop that is
still spinning. -/
inductive StepRes (σ τ : Type) where
  | done (r : Except MesalinkError (Nat × Nat)) (s : σ) (t : τ)
  | next (eof : Bool) (rdlen wrlen : Nat) (s : σ) (t : τ)
  | spin (s : σ) (t : τ)
  deriving Repr

/-- One iteration of the `loop` in `complete_handshake_io` (`ssl.rs`
lines 1404-1442): drain pending writes; on a pure-flush call with bytes
written, return success; read one transport chunk; process new packets
(on failure drain pending alerts and flush, then report the mapped
protocol error); evaluate the termination conditions. -/
def hsStep {σ τ : Type} (ops : SessionOps σ τ) (dfuel : Nat)
    (untilHs : Bool) (eof : Bool) (rdlen wrlen : Nat) (s : σ) (t : τ) :
    StepRes σ τ :=
  match drainWrites ops dfuel wrlen s t with
  | .spin s1 t1 => .spin s1 t1
  | .fail e s1 t1 => .done (.error ⟨ErrorCode.fromIo e⟩) s1 t1
  | .ok wrlen1 s1 t1 =>
    if untilHs = false ∧ 0 < wrlen1 then .done (.ok (rdlen, wrlen1)) s1 t1
    else
      match hsReadPhase ops eof rdlen s1 t1 with
      | .error e => .done (.error ⟨ErrorCode.fromIo e⟩) s1 t1
      | .ok (eof2, rdlen2, s2, t2) =>
        match ops.process_new_packets s2 with
        | (some te, s3) =>
          match drainWrites ops dfuel 0 s3 t2 with
          | .spin s4 t4 => .spin s4 t4
          | .fail e s4 t4 => .done (.error ⟨ErrorCode.fromIo e⟩) s4 t4
          | .ok _ s4 t4 =>
            match ops.flushTransport t4 with
            | .error e => .done (.error ⟨ErrorCode.fromIo e⟩) s4 t4
            | .ok t5 => .done (.error ⟨ErrorCode.fromTls te⟩) s4 t5
        | (none, s3) =>
          match eof2, untilHs, ops.is_handshaking s3 with
          | _, true, false => .done (.ok (rdlen2, wrlen1)) s3 t2
          | _, false, _ => .done (.ok (rdlen2, wrlen1)) s3 t2
          | true, true, true => .done (.error ⟨.IoErrorUnexpectedEof⟩) s3 t2
          | false, true, true => .next eof2 rdlen2 wrlen1 s3 t2

/-- Overall outcome of the handshake driver: success with the read/write
byte counts, failure with a MesaLink error, or fuel exhaustion. -/
inductive Driven (σ τ : Type) where
  | ok (rdlen wrlen : Nat) (s : σ) (t : τ)
  | fail (e : MesalinkError) (s : σ) (t : τ)
  | spin (s : σ) (t : τ)
  deriving Repr

/-- The outer `loop` of `complete_handshake_io`, fueled. -/
def completeHandshakeLoop {σ τ : Type} (ops : SessionOps σ τ)
    (dfuel : Nat) (untilHs : Bool) :
    Nat → Bool → Nat → Nat → σ → τ → Driven σ τ
  | 0, _, _, _, s, t => .spin s t
  | fuel + 1, eof, rdlen, wrlen, s, t =>
    match hsStep ops dfuel untilHs eof rdlen wrlen s t with
    | .spin s1 t1 => .spin s1 t1
    | .done (.ok (r, w)) s1 t1 => .ok r w s1 t1
    | .done (.error e) s1 t1 => .fail e s1 t1
    | .next eof1 r1 w1 s1 t1 =>
      completeHandshakeLoop ops dfuel untilHs fuel eof1 r1 w1 s1 t1

/-- `complete_handshake_io` (`ssl.rs` lines 1395-1443): record whether
the session was handshaking on entry (`until_handshaked`), start with
`eof = false` and zero byte counts, and run the loop. -/
def complete_handshake_io {σ τ : Type} (ops : SessionOps σ τ)
    (fuel dfuel : Nat) (s : σ) (t : τ) : Driven σ τ :=
  completeHandshakeLoop ops dfuel (ops.is_handshaking s) fuel false 0 0 s t

/-- `MESALINK_SSL` (`ssl.rs` lines 240-250): the per-connection object.
The `io` field is the attached transport; `session` the live engine
session. -/
structure SSLConn (σ τ : Type) where
  context : Option MESALINK_CTX
  client_config : ClientConfig
  server_config : ServerConfig
  hostname : Option String
  io : Option τ
  session : Option σ
  error : ErrorCode
  eof : Bool

/-- `MESALINK_SSL::new` (`ssl.rs` lines 258-272): retain the context and
snapshot (clone) its client and server configurations; no transport, no
hostname, no session, default error, `eof = false`. -/
def SSLConn.new (σ τ : Type) (ctx : MESALINK_CTX) : SSLConn σ τ :=
  { context := some ctx
    client_config := ctx.client_config
    server_config := ctx.server_config
    hostname := none
    io := none
    session := none
    error := .MesalinkErrorNone
    eof := false }

/-- `inner_mesalink_ssl_connect` (`ssl.rs` lines 1343-1362), for a
connection whose handle has already been validated.  `newClient` is the
engine's `ClientSession::new` and `dnsValid` the webpki DNS-name check,
both external collaborators.  Returns `none` when the fueled driver was
still running (the source would still be looping). -/
def inner_mesalink_ssl_connect {σ τ : Type} (ops : SessionOps σ τ)
    (newClient : ClientConfig → String → σ) (dnsValid : String → Bool)
    (fuel dfuel : Nat) (ssl : SSLConn σ τ) :
    Option (MesalinkInnerResult Int × SSLConn σ τ) :=
  match ssl.hostname with
  | none => some (.error ⟨.MesalinkErrorBadFuncArg⟩, ssl)
  | some hn =>
    if dnsValid hn then
      let session0 := newClient ssl.client_config hn
      match ssl.io with
      | none => some (.error ⟨.MesalinkErrorBadFuncArg⟩, ssl)
      | some t =>
        match complete_handshake_io ops fuel dfuel session0 t with
        | .spin _ _ => none
        | .fail e _ t1 =>
          some (.error e, { ssl with error := e.code, io := some t1 })
        | .ok _ _ s1 t1 =>
          some (.ok SSL_SUCCESS, { ssl with session := some s1, io := some t1 })
    else some (.error ⟨.MesalinkErrorBadFuncArg⟩, ssl)

/-- `inner_mesalink_ssl_accept` (`ssl.rs` lines 1379-1393), for a
connection whose handle has already been validated.  `newServer` is the
engine's `ServerSession::new`. -/
def inner_mesalink_ssl_accept {σ τ : Type} (ops : SessionOps σ τ)
    (newServer : ServerConfig → σ) (fuel dfuel : Nat) (ssl : SSLConn σ τ) :
    Option (MesalinkInnerResult Int × SSLConn σ τ) :=
  let session0 := newServer ssl.server_config
  match ssl.io with
  | none => some (.error ⟨.MesalinkErrorBadFuncArg⟩, ssl)
  | some t =>
    match complete_handshake_io ops fuel dfuel session0 t with
    | .spin _ _ => none
    | .fail e _ t1 =>
      some (.error e, { ssl with error := e.code, io := some t1 })
    | .ok _ _ s1 t1 =>
      some (.ok SSL_SUCCESS, { ssl with session := some s1, io := some t1 })

/-- `inner_mesalink_ssl_get_current_cipher` (`ssl.rs` lines 1061-1072):
requires a live session and a negotiated ciphersuite; models the
returned `MESALINK_CIPHER` by its ciphersuite id. -/
def inner_mesalink_ssl_get_current_cipher {σ τ : Type}
    (ops : SessionOps σ τ) (ssl : SSLConn σ τ) : MesalinkInnerResult Nat :=
  match ssl.session with
  | none => .error ⟨.MesalinkErrorBadFuncArg⟩
  | some s =>
    match ops.get_negotiated_ciphersuite s with
    | none => .error ⟨.MesalinkErrorBadFuncArg⟩
    | some cs => .ok cs

/-- `CONST_TLS12_STR` (`ssl.rs` line 1638). -/
def CONST_TLS12_STR : String := "TLS1.2"

/-- `CONST_TLS13_STR` (`ssl.rs` line 1639). -/
def CONST_TLS13_STR : String := "TLS1.3"

/-- `inner_mesalink_ssl_get_version` (`ssl.rs` lines 1580-1595):
requires a live session and a negotiated protocol version; returns the
corresponding constant string. -/
def inner_mesalink_ssl_get_version {σ τ : Type} (ops : SessionOps σ τ)
    (ssl : SSLConn σ τ) : MesalinkInnerResult String :=
  match ssl.session with
  | none => .error ⟨.MesalinkErrorBadFuncArg⟩
  | some s =>
    match ops.get_protocol_version s with
    | none => .error ⟨.MesalinkErrorBadFuncArg⟩
    | some .tls12 => .ok CONST_TLS12_STR
    | some .tls13 => .ok CONST_TLS13_STR

/-- The mutable state threaded through `<MESALINK_SSL as Read>::read`:
session, transport, last-error slot, end-of-stream flag, and the global
error queue. -/
structure RwSt (σ τ : Type) where
  s : σ
  t : τ
  error : ErrorCode
  eof : Bool
  q : ErrorQueue

/-- Outcome of the plaintext-read loop: `Ok(n)`, an `io::Error` of kind
`k`, or fuel exhaustion. -/
inductive ReadRes (σ τ : Type) where
  | ok (n : Nat) (st : RwSt σ τ)
  | fail (k : IoErrorKind) (st : RwSt σ τ)
  | spin (st : RwSt σ τ)

/-- One iteration of the read loop: either a terminal result or the
updated state for the next iteration. -/
inductive ReadStep (σ τ : Type) where
  | done (r : ReadRes σ τ)
  | again (st : RwSt σ τ)

/-- One iteration of the `loop` in `<MESALINK_SSL as Read>::read`
(`ssl.rs` lines 278-346): clear a stale transient error; try a plaintext
read; on zero bytes multiplex on the engine's `wants_write`/`wants_read`
signals exactly as the source does; `bl` is the caller's buffer length. -/
def sslReadStep {σ τ : Type} (ops : SessionOps σ τ) (dfuel bl : Nat)
    (st : RwSt σ τ) : ReadStep σ τ :=
  let e0 := match st.error with
    | .MesalinkErrorNone => ErrorCode.MesalinkErrorNone
    | .MesalinkErrorWantRead => ErrorCode.MesalinkErrorNone
    | .MesalinkErrorWantWrite => ErrorCode.MesalinkErrorNone
    | e => e
  let st0 : RwSt σ τ := { st with error := e0 }
  match ops.readPlain st0.s bl with
  | .error e =>
    let code := ErrorCode.fromIo e
    .done (.fail e { st0 with error := code, q := st0.q.push ⟨code⟩ })
  | .ok (n + 1, s1) =>
    .done (.ok (n + 1) { st0 with s := s1, error := .MesalinkErrorNone })
  | .ok (0, s1) =>
    if ops.wants_write s1 then
      match ops.write_tls s1 st0.t with
      | .ok (_, s2, t2) => .again { st0 with s := s2, t := t2 }
      | .error e =>
        let code := if e == .wouldBlock then ErrorCode.MesalinkErrorWantWrite
                    else ErrorCode.fromIo e
        .done (.fail e { st0 with s := s1, error := code, q := st0.q.push ⟨code⟩ })
    else if ops.wants_read s1 then
      match ops.read_tls s1 st0.t with
      | .ok (0, s2, t2) =>
        if ops.is_handshaking s2 then
          .done (.fail .unexpectedEof
            { st0 with
              s := s2
              t := t2
              error := .IoErrorUnexpectedEof
              q := st0.q.push ⟨.IoErrorUnexpectedEof⟩ })
        else
          .done (.ok 0 { st0 with s := s2, t := t2, eof := true })
      | .error e =>
        let code := if e == .wouldBlock then ErrorCode.MesalinkErrorWantRead
                    else ErrorCode.fromIo e
        .done (.fail e { st0 with s := s1, error := code, q := st0.q.push ⟨code⟩ })
      | .ok (_ + 1, s2, t2) =>
        match ops.process_new_packets s2 with
        | (none, s3) => .again { st0 with s := s3, t := t2 }
        | (some te, s3) =>
          match drainWrites ops dfuel 0 s3 t2 with
          | .spin s4 t4 => .done (.spin { st0 with s := s4, t := t4 })
          | .fail e s4 t4 => .done (.fail e { st0 with s := s4, t := t4 })
          | .ok _ s4 t4 =>
            match ops.flushTransport t4 with
            | .error e => .done (.fail e { st0 with s := s4, t := t4 })
            | .ok t5 =>
              let code := ErrorCode.fromTls te
              .done (.fail .invalidData
                { st0 with
                  s := s4
                  t := t5
                  error := code
                  q := st0.q.push ⟨code⟩ })
    else
      .done (.ok 0
        { st0 with
          s := s1
          error := .MesalinkErrorZeroReturn
          q := st0.q.push ⟨.MesalinkErrorZeroReturn⟩ })

/-- The fueled read loop. -/
def sslReadLoop {σ τ : Type} (ops : SessionOps σ τ) (dfuel bl : Nat) :
    Nat → RwSt σ τ → ReadRes σ τ
  | 0, st => .spin st
  | fuel + 1, st =>
    match sslReadStep ops dfuel bl st with
    | .done r => r
    | .again st1 => sslReadLoop ops dfuel bl fuel st1

/-- Outcome of a read call on a connection. -/
inductive ConnReadRes (σ τ : Type) where
  | ok (n : Nat) (conn : SSLConn σ τ) (q : ErrorQueue)
  | fail (k : IoErrorKind) (conn : SSLConn σ τ) (q : ErrorQueue)
  | spin

/-- `<MESALINK_SSL as Read>::read` (`ssl.rs` lines 275-353): requires
both a live session and a transport, otherwise pushes `BadFuncArg` and
fails with an `Other`-kind error; else runs the read loop and stores its
final session/transport/error/eof state back on the connection. -/
def ssl_read_impl {σ τ : Type} (ops : SessionOps σ τ) (fuel dfuel bl : Nat)
    (conn : SSLConn σ τ) (q : ErrorQueue) : ConnReadRes σ τ :=
  match conn.session, conn.io with
  | some s, some t =>
    let st0 : RwSt σ τ := { s := s, t := t, error := conn.error, eof := conn.eof, q := q }
    match sslReadLoop ops dfuel bl fuel st0 with
    | .spin _ => .spin
    | .ok n st =>
      .ok n
        { conn with
          session := some st.s
          io := some st.t
          error := st.error
          eof := st.eof } st.q
    | .fail k st =>
      .fail k
        { conn with
          session := some st.s
          io := some st.t
          error := st.error
          eof := st.eof } st.q
  | _, _ => .fail .otherKind conn (q.push ⟨.MesalinkErrorBadFuncArg⟩)

/-- `inner_mesalink_ssl_set_tlsext_host_name` (`ssl.rs` lines
1266-1283), for a connection whose handle has already been validated.
`utf8Decode` stands for `CStr::to_str` and `dnsValid` for
`webpki::DNSNameRef::try_from_ascii_str`, both external: a null name
pointer yields `NullPointer`; an undecodable or illegal name yields
`BadFuncArg`; a legal DNS name is stored and the call succeeds. -/
def inner_mesalink_ssl_set_tlsext_host_name {σ τ : Type}
    (utf8Decode : List Nat → Option String) (dnsValid : String → Bool)
    (ssl : SSLConn σ τ) (hostnamePtr : Option (List Nat)) :
    MesalinkInnerResult Int × SSLConn σ τ :=
  match hostnamePtr with
  | none => (.error ⟨.MesalinkErrorNullPointer⟩, ssl)
  | some bytes =>
    match utf8Decode bytes with
    | none => (.error ⟨.MesalinkErrorBadFuncArg⟩, ssl)
    | some hn =>
      if dnsValid hn then (.ok SSL_SUCCESS, { ssl with hostname := some hn })
      else (.error ⟨.MesalinkErrorBadFuncArg⟩, ssl)

/-- `VerifyModes::VerifyNone` (`ssl.rs` line 406). -/
def VerifyNone : Int := 0

/-- `inner_mesalink_ssl_ctx_set_verify` (`ssl.rs` lines 951-963), for a
context whose handle has already been validated: mode `VerifyNone`
installs the permissive `NoServerAuth` certificate verifier on the
client configuration; every mode returns `SSL_SUCCESS`. -/
def inner_mesalink_ssl_ctx_set_verify (mode : Int) (ctx : MESALINK_CTX) :
    MesalinkInnerResult Int × MESALINK_CTX :=
  if mode == VerifyNone then
    (.ok SSL_SUCCESS,
     { ctx with client_config := { ctx.client_config with verifier := .noServerAuth } })
  else (.ok SSL_SUCCESS, ctx)

/-- `util::try_get_context_certs_and_key` (`ssl.rs` lines 1645-1651). -/
def try_get_context_certs_and_key (ctx : MESALINK_CTX) :
    Option (List Nat × Nat) :=
  match ctx.certificates, ctx.private_key with
  | some cs, some k => some (cs, k)
  | _, _ => none

/-- The shared tail of the two loaders (`ssl.rs` lines 834-838 and
894-898): when both a certificate chain and a private key are present,
install them on the server configuration via `set_single_cert`. -/
def updateServerIdentity (ctx : MESALINK_CTX) : MESALINK_CTX :=
  match try_get_context_certs_and_key ctx with
  | some (cs, k) =>
    { ctx with server_config := { ctx.server_config with identity := some (cs, k) } }
  | none => ctx

/-- `inner_mesalink_ssl_ctx_use_certificate_chain_file` (`ssl.rs` lines
811-840), for a validated context handle: the file-opening and PEM
parsing collaborators are summarized by `parsedCerts` (`none` covers a
parse failure; the source maps it, like an empty chain, to
`TLSErrorWebpkiBadDER`); on success the chain is stored and the server
identity refreshed when a key is present. -/
def inner_mesalink_ssl_ctx_use_certificate_chain (ctx : MESALINK_CTX)
    (parsedCerts : Option (List Nat)) : MesalinkInnerResult Int × MESALINK_CTX :=
  match parsedCerts with
  | none => (.error ⟨.TLSErrorWebpkiBadDER⟩, ctx)
  | some certs =>
    if certs.length = 0 then (.error ⟨.TLSErrorWebpkiBadDER⟩, ctx)
    else
      let ctx1 := { ctx with certificates := some certs }
      (.ok SSL_SUCCESS, updateServerIdentity ctx1)

/-- `inner_mesalink_ssl_ctx_use_privatekey_file` (`ssl.rs` lines
865-900), for a validated context handle: try the RSA parse, then the
PKCS8 parse, each accepted only when it yields at least one key, the
later (PKCS8) overriding the earlier; store the first key of the
accepted list and refresh the server identity when a chain is present. -/
def inner_mesalink_ssl_ctx_use_privatekey (ctx : MESALINK_CTX)
    (rsaKeys pk8Keys : Option (List Nat)) : MesalinkInnerResult Int × MESALINK_CTX :=
  let v0 : Option (List Nat) := none
  let v1 := match rsaKeys with
    | some ks => if 0 < ks.length then some ks else v0
    | none => v0
  let v2 := match pk8Keys with
    | some ks => if 0 < ks.length then some ks else v1
    | none => v1
  match v2 with
  | none => (.error ⟨.TLSErrorWebpkiBadDER⟩, ctx)
  | some keys =>
    let ctx1 := { ctx with private_key := some (keys.headD 0) }
    (.ok SSL_SUCCESS, updateServerIdentity ctx1)

/-- A heap cell holding a `MESALINK_METHOD` allocation.  `freeCount`
records how many times `Box::from_raw` has reclaimed it; the bytes
(`content`) survive a free, as they do in the C memory model until the
allocator reuses them. -/
structure MethodCell where
  freeCount : Nat
  content : TaggedObj MESALINK_METHOD
  deriving DecidableEq, Repr

/-- The heap of `MESALINK_METHOD` allocations, keyed by address. -/
abbrev MethodHeap := List (Nat × MethodCell)

/-- Read the cell at address `a`. -/
def heapFind (h : MethodHeap) (a : Nat) : Option MethodCell :=
  match h with
  | [] => none
  | (b, c) :: rest => if b = a then some c else heapFind rest a

/-- `Box::from_raw` followed by drop: reclaim the allocation at `a`
(bytes retained, free count incremented). -/
def heapFree (h : MethodHeap) (a : Nat) : MethodHeap :=
  h.map (fun p => if p.1 = a then (p.1, { p.2 with freeCount := p.2.freeCount + 1 }) else p)

/-- `inner_mesalink_ssl_ctx_new` (`ssl.rs` lines 777-784): validate the
method pointer, build the context from the method's versions, then free
the method allocation.  A wild pointer (an address that was never a
method allocation) is undefined behavior in the source and yields
`none` here. -/
def inner_mesalink_ssl_ctx_new (processMagic : Nat) (h : MethodHeap)
    (p : Option Nat) : Option (MesalinkInnerResult MESALINK_CTX × MethodHeap) :=
  match p with
  | none => some (.error ⟨.MesalinkErrorNullPointer⟩, h)
  | some a =>
    match heapFind h a with
    | none => none
    | some cell =>
      match sanitize_const_ptr_for_ref processMagic (.valid cell.content) with
      | .error e => some (.error e, h)
      | .ok m => some (.ok (MESALINK_CTX.new m.obj), heapFree h a)

/-- The `rustls::StoresClientSessions` capability of the bounded
in-memory cache the MesaLink cache wraps (`ClientSessionMemoryCache`, an
external collaborator); `γ` is its state. -/
structure StoresClientSessions (γ : Type) where
  putOp : γ → List Nat → List Nat → Bool × γ
  getOp : γ → List Nat → Option (List Nat)

/-- The guard of `MesalinkClientSessionCache::put` (`ssl.rs` line 157):
`key.len() > 2 && key[0] == b'k' && key[1] == b'x'` (`b'k'` is 107 and
`b'x'` is 120). -/
def isKxKey (key : List Nat) : Bool :=
  decide (2 < key.length) && key.getD 0 0 == 107 && key.getD 1 0 == 120

/-- `MesalinkClientSessionCache::put` (`ssl.rs` lines 156-162): a key of
length greater than 2 whose first two bytes are `b'k'` and `b'x'` is
accepted without being stored; every other pair is delegated to the
wrapped bounded cache. -/
def mesalinkCachePut {γ : Type} (inner : StoresClientSessions γ) (c : γ)
    (key value : List Nat) : Bool × γ :=
  if isKxKey key then (true, c)
  else inner.putOp c key value

/-- `MesalinkClientSessionCache::get` (`ssl.rs` lines 164-166):
delegates to the wrapped cache. -/
def mesalinkCacheGet {γ : Type} (inner : StoresClientSessions γ) (c : γ)
    (key : List Nat) : Option (List Nat) :=
  inner.getOp c key

/-- `inner_mesalink_ssl_new` (`ssl.rs` lines 978-983): validate the
context handle, then build a fresh connection from it; the context is
not mutated. -/
def inner_mesalink_ssl_new_ptr (σ τ : Type) (processMagic : Nat)
    (ptr : RawPtr MESALINK_CTX) : MesalinkInnerResult (SSLConn σ τ) :=
  match sanitize_ptr_for_mut_ref processMagic ptr with
  | .error e => .error e
  | .ok o => .ok (SSLConn.new σ τ o.obj)

/-- `inner_mesalink_ssl_ctx_set_verify` at the pointer level (`ssl.rs`
lines 951-963): validate the context handle first, then run the body on
the pointed-at context. -/
def inner_mesalink_ssl_ctx_set_verify_ptr (processMagic : Nat)
    (ptr : RawPtr MESALINK_CTX) (mode : Int) :
    MesalinkInnerResult Int × RawPtr MESALINK_CTX :=
  match sanitize_ptr_for_mut_ref processMagic ptr with
  | .error e => (.error e, ptr)
  | .ok o =>
    let (r, ctx1) := inner_mesalink_ssl_ctx_set_verify mode o.obj
    (r, .valid { o with obj := ctx1 })

/-- `inner_mesalink_ssl_ctx_use_certificate_chain_file` at the pointer
level (`ssl.rs` lines 811-840): the context handle is validated before
the filename check, the file accesses and any mutation. -/
def inner_mesalink_ssl_ctx_use_certificate_chain_ptr (processMagic : Nat)
    (ptr : RawPtr MESALINK_CTX) (parsedCerts : Option (List Nat)) :
    MesalinkInnerResult Int × RawPtr MESALINK_CTX :=
  match sanitize_ptr_for_mut_ref processMagic ptr with
  | .error e => (.error e, ptr)
  | .ok o =>
    let (r, ctx1) := inner_mesalink_ssl_ctx_use_certificate_chain o.obj parsedCerts
    (r, .valid { o with obj := ctx1 })

/-- `inner_mesalink_ssl_ctx_use_privatekey_file` at the pointer level
(`ssl.rs` lines 865-900): the context handle is validated before the
filename check, the file accesses and any mutation. -/
def inner_mesalink_ssl_ctx_use_privatekey_ptr (processMagic : Nat)
    (ptr : RawPtr MESALINK_CTX) (rsaKeys pk8Keys : Option (List Nat)) :
    MesalinkInnerResult Int × RawPtr MESALINK_CTX :=
  match sanitize_ptr_for_mut_ref processMagic ptr with
  | .error e => (.error e, ptr)
  | .ok o =>
    let (r, ctx1) := inner_mesalink_ssl_ctx_use_privatekey o.obj rsaKeys pk8Keys
    (r, .valid { o with obj := ctx1 })

/-- `inner_mesalink_ssl_set_tlsext_host_name` at the pointer level
(`ssl.rs` lines 1266-1283): the connection handle is validated before
the name pointer is even null-checked. -/
def inner_mesalink_ssl_set_tlsext_host_name_ptr {σ τ : Type}
    (processMagic : Nat) (u : List Nat → Option String)
    (d : String → Bool) (ptr : RawPtr (SSLConn σ τ))
    (hostnamePtr : Option (List Nat)) :
    MesalinkInnerResult Int × RawPtr (SSLConn σ τ) :=
  match sanitize_ptr_for_mut_ref processMagic ptr with
  | .error e => (.error e, ptr)
  | .ok o =>
    let (r, ssl1) := inner_mesalink_ssl_set_tlsext_host_name u d o.obj hostnamePtr
    (r, .valid { o with obj := ssl1 })

/-- `inner_mesalink_ssl_connect` at the pointer level (`ssl.rs` lines
1343-1362): the connection handle is validated before anything else. -/
def inner_mesalink_ssl_connect_ptr {σ τ : Type} (processMagic : Nat)
    (ops : SessionOps σ τ) (newClient : ClientConfig → String → σ)
    (dnsValid : String → Bool) (fuel dfuel : Nat)
    (ptr : RawPtr (SSLConn σ τ)) :
    Option (MesalinkInnerResult Int × RawPtr (SSLConn σ τ)) :=
  match sanitize_ptr_for_mut_ref processMagic ptr with
  | .error e => some (.error e, ptr)
  | .ok o =>
    match inner_mesalink_ssl_connect ops newClient dnsValid fuel dfuel o.obj with
    | none => none
    | some (r, ssl1) => some (r, .valid { o with obj := ssl1 })

/-- `inner_mesalink_ssl_accept` at the pointer level (`ssl.rs` lines
1379-1393): the connection handle is validated before anything else. -/
def inner_mesalink_ssl_accept_ptr {σ τ : Type} (processMagic : Nat)
    (ops : SessionOps σ τ) (newServer : ServerConfig → σ)
    (fuel dfuel : Nat) (ptr : RawPtr (SSLConn σ τ)) :
    Option (MesalinkInnerResult Int × RawPtr (SSLConn σ τ)) :=
  match sanitize_ptr_for_mut_ref processMagic ptr with
  | .error e => some (.error e, ptr)
  | .ok o =>
    match inner_mesalink_ssl_accept ops newServer fuel dfuel o.obj with
    | none => none
    | some (r, ssl1) => some (r, .valid { o with obj := ssl1 })

/-- Outcome of the read entry point: the inner result together with the
final pointed-at connection and the error queue, or fuel exhaustion. -/
inductive ReadEntryRes (σ τ : Type) where
  | out (r : MesalinkInnerResult Int) (p : RawPtr (SSLConn σ τ)) (q : ErrorQueue)
  | spin

/-- `inner_mesalink_ssl_read` (`ssl.rs` lines 1489-1506): a null buffer
or negative length fails with `BadFuncArg`; then the connection handle
is validated before the buffer is touched; then the `Read`
implementation runs, a `WouldBlock`/`NotConnected` failure surfacing as
`Ok(SSL_ERROR)` and any other failure as the mapped error. -/
def inner_mesalink_ssl_read_ptr {σ τ : Type} (processMagic : Nat)
    (ops : SessionOps σ τ) (fuel dfuel : Nat) (ptr : RawPtr (SSLConn σ τ))
    (bufNull : Bool) (bufLen : Int) (q : ErrorQueue) : ReadEntryRes σ τ :=
  if bufNull = true ∨ bufLen < 0 then
    .out (.error ⟨.MesalinkErrorBadFuncArg⟩) ptr q
  else
    match sanitize_ptr_for_mut_ref processMagic ptr with
    | .error e => .out (.error e) ptr q
    | .ok o =>
      match ssl_read_impl ops fuel dfuel bufLen.toNat o.obj q with
      | .spin => .spin
      | .ok n conn1 q1 => .out (.ok (n : Int)) (.valid { o with obj := conn1 }) q1
      | .fail k conn1 q1 =>
        if k == .wouldBlock || k == .notConnected then
          .out (.ok SSL_ERROR) (.valid { o with obj := conn1 }) q1
        else
          .out (.error ⟨ErrorCode.fromIo k⟩) (.valid { o with obj := conn1 }) q1

/-- A deterministic scripted engine for exercising the theorems on
concrete inputs.  State `0` is mid-handshake and wants one transport
read, which delivers five bytes and moves to state `1`; state `1` has
completed the handshake, with ciphersuite `0xcca8` and TLS 1.3
negotiated.  State `10` is an established session whose transport has
reached end-of-stream (a `read_tls` yields zero bytes and state `11`,
which is not handshaking). -/
def testOps : SessionOps Nat Nat where
  wants_write _ := false
  wants_read s := s == 0 || s == 10
  is_handshaking s := s == 0
  write_tls s t := .ok (0, s, t)
  read_tls s t := if s == 0 then .ok (5, 1, t) else .ok (0, 11, t)
  process_new_packets s := (none, s)
  flushTransport t := .ok t
  readPlain s _ := .ok (0, s)
  get_negotiated_ciphersuite s := if s == 0 then none else some 52392
  get_protocol_version s := if s == 0 then none else some ProtocolVersion.tls13

/-- A concrete method descriptor for tests: TLS 1.2 only. -/
def testMethod : MESALINK_METHOD := { versions := [.tls12] }

/-- A concrete context for tests. -/
def testCtx : MESALINK_CTX := MESALINK_CTX.new testMethod

/-- A concrete connection for tests: built from `testCtx`, hostname and
transport attached, session `0` pending (none stored yet). -/
def testConn : SSLConn Nat Nat :=
  { SSLConn.new Nat Nat testCtx with hostname := some "localhost", io := some 0 }

/-- A concrete association-list instance of the wrapped bounded cache. -/
def testStore : StoresClientSessions (List (List Nat × List Nat)) where
  putOp c key value := (true, (key, value) :: c)
  getOp c key := (c.find? (fun p => p.1 == key)).map Prod.snd

section Claims

/-- C1: for every boundary-wrapped entry point and every input, the
adapter `check_inner_result` catches a panic as a queued `Panic` error
and returns the failure sentinel; pushes an application error and
returns the failure sentinel; and passes a success value through with
nothing pushed.  (The adapter is a total function of the inner outcome,
so no call unwinds past the boundary.) -/
theorem check_inner_result_spec {α : Type} (q : ErrorQueue)
    (inner : InnerOutcome α) (errRet : α) :
    (∀ v, inner = .ok v → check_inner_result q inner errRet = (v, q)) ∧
    (∀ e, inner = .err e →
      check_inner_result q inner errRet = (errRet, q ++ [e])) ∧
    (inner = .panicked →
      check_inner_result q inner errRet = (errRet, q ++ [⟨.MesalinkErrorPanic⟩])) := by
  refine ⟨?_, ?_, ?_⟩ <;> intro h
  · intro hv; subst hv; rfl
  · intro hv; subst hv; rfl
  · subst h; rfl

/-- Witness for C1: a panicking inner operation at a concrete input. -/
theorem check_inner_result_spec_witness :
    check_inner_result ([] : ErrorQueue) (InnerOutcome.panicked (α := Int)) SSL_FAILURE
      = (SSL_FAILURE, [⟨.MesalinkErrorPanic⟩]) :=
  (check_inner_result_spec [] (InnerOutcome.panicked (α := Int)) SSL_FAILURE).2.2 rfl

/-- C2: a null pointer is rejected with `NullPointer`; a non-null
pointer with a mismatched magic tag is rejected with `MalformedObject`;
otherwise the checked object is produced.  The two shared-reference
variants agree with the mutable-reference variant.  And every embedded
public entry point performs this check before touching object state:
whenever the validator rejects a handle, `SSL_CTX_new`, `SSL_new`,
`SSL_CTX_set_verify`, both loaders, `SSL_set_tlsext_host_name`,
`SSL_connect`, `SSL_accept` and `SSL_read` return exactly the
validator's error with the pointed-at state, the heap and the error
queue unchanged. -/
theorem sanitize_ptr_spec {α : Type} (σ τ : Type) (processMagic : Nat)
    (ops : SessionOps σ τ) (newClient : ClientConfig → String → σ)
    (newServer : ServerConfig → σ) (dnsValid : String → Bool)
    (u : List Nat → Option String) (d : String → Bool)
    (fuel dfuel : Nat) (q : ErrorQueue) (mode : Int)
    (parsedCerts rsaKeys pk8Keys : Option (List Nat))
    (hostnamePtr : Option (List Nat)) (bufNull : Bool) (bufLen : Int) :
    (sanitize_ptr_for_mut_ref (α := α) processMagic .null
        = .error ⟨.MesalinkErrorNullPointer⟩) ∧
    (∀ o : TaggedObj α, o.magic ≠ processMagic →
      sanitize_ptr_for_mut_ref processMagic (.valid o)
        = .error ⟨.MesalinkErrorMalformedObject⟩) ∧
    (∀ o : TaggedObj α, o.magic = processMagic →
      sanitize_ptr_for_mut_ref processMagic (.valid o) = .ok o) ∧
    (∀ p : RawPtr α, sanitize_ptr_for_ref processMagic p
        = sanitize_ptr_for_mut_ref processMagic p) ∧
    (∀ p : RawPtr α, sanitize_const_ptr_for_ref processMagic p
        = sanitize_ptr_for_mut_ref processMagic p) ∧
    (∀ h : MethodHeap, inner_mesalink_ssl_ctx_new processMagic h none
        = some (.error ⟨.MesalinkErrorNullPointer⟩, h)) ∧
    (∀ (h : MethodHeap) (a : Nat) (cell : MethodCell),
      heapFind h a = some cell → cell.content.magic ≠ processMagic →
      inner_mesalink_ssl_ctx_new processMagic h (some a)
        = some (.error ⟨.MesalinkErrorMalformedObject⟩, h)) ∧
    (∀ (e : MesalinkError) (p : RawPtr MESALINK_CTX),
      sanitize_ptr_for_mut_ref processMagic p = .error e →
      inner_mesalink_ssl_new_ptr σ τ processMagic p = .error e) ∧
    (∀ (e : MesalinkError) (p : RawPtr MESALINK_CTX),
      sanitize_ptr_for_mut_ref processMagic p = .error e →
      inner_mesalink_ssl_ctx_set_verify_ptr processMagic p mode
        = (.error e, p)) ∧
    (∀ (e : MesalinkError) (p : RawPtr MESALINK_CTX),
      sanitize_ptr_for_mut_ref processMagic p = .error e →
      inner_mesalink_ssl_ctx_use_certificate_chain_ptr processMagic p parsedCerts
        = (.error e, p)) ∧
    (∀ (e : MesalinkError) (p : RawPtr MESALINK_CTX),
      sanitize_ptr_for_mut_ref processMagic p = .error e →
      inner_mesalink_ssl_ctx_use_privatekey_ptr processMagic p rsaKeys pk8Keys
        = (.error e, p)) ∧
    (∀ (e : MesalinkError) (p : RawPtr (SSLConn σ τ)),
      sanitize_ptr_for_mut_ref processMagic p = .error e →
      inner_mesalink_ssl_set_tlsext_host_name_ptr processMagic u d p hostnamePtr
        = (.error e, p)) ∧
    (∀ (e : MesalinkError) (p : RawPtr (SSLConn σ τ)),
      sanitize_ptr_for_mut_ref processMagic p = .error e →
      inner_mesalink_ssl_connect_ptr processMagic ops newClient dnsValid fuel dfuel p
        = some (.error e, p)) ∧
    (∀ (e : MesalinkError) (p : RawPtr (SSLConn σ τ)),
      sanitize_ptr_for_mut_ref processMagic p = .error e →
      inner_mesalink_ssl_accept_ptr processMagic ops newServer fuel dfuel p
        = some (.error e, p)) ∧
    (∀ (e : MesalinkError) (p : RawPtr (SSLConn σ τ)),
      ¬(bufNull = true ∨ bufLen < 0) →
      sanitize_ptr_for_mut_ref processMagic p = .error e →
      inner_mesalink_ssl_read_ptr processMagic ops fuel dfuel p bufNull bufLen q
        = .out (.error e) p q) := by
  refine ⟨rfl, ?_, ?_, fun _ => rfl, fun _ => rfl, fun _ => rfl, ?_,
    ?_, ?_, ?_, ?_, ?_, ?_, ?_, ?_⟩
  · intro o hne
    have hb : (o.magic == processMagic) = false := by simp [hne]
    simp [sanitize_ptr_for_mut_ref, checkMagic, hb]
  · intro o he
    have hb : (o.magic == processMagic) = true := by simp [he]
    simp [sanitize_ptr_for_mut_ref, checkMagic, hb]
  · intro h a cell hfind hne
    have hb : (cell.content.magic == processMagic) = false := by simp [hne]
    simp [inner_mesalink_ssl_ctx_new, hfind, sanitize_const_ptr_for_ref,
      sanitize_ptr_for_mut_ref, checkMagic, hb]
  · intro e p hsan
    simp [inner_mesalink_ssl_new_ptr, hsan]
  · intro e p hsan
    simp [inner_mesalink_ssl_ctx_set_verify_ptr, hsan]
  · intro e p hsan
    simp [inner_mesalink_ssl_ctx_use_certificate_chain_ptr, hsan]
  · intro e p hsan
    simp [inner_mesalink_ssl_ctx_use_privatekey_ptr, hsan]
  · intro e p hsan
    simp [inner_mesalink_ssl_set_tlsext_host_name_ptr, hsan]
  · intro e p hsan
    simp [inner_mesalink_ssl_connect_ptr, hsan]
  · intro e p hsan
    simp [inner_mesalink_ssl_accept_ptr, hsan]
  · intro e p hbuf hsan
    simp [inner_mesalink_ssl_read_ptr, hbuf, hsan]

/-- Witness for C2: a tag mismatch on the bare validator, and a null
connection handle rejected by the connect entry point with nothing
touched, at concrete inputs. -/
theorem sanitize_ptr_spec_witness :
    sanitize_ptr_for_mut_ref (α := Unit) 7 (.valid ⟨9, ()⟩)
      = .error ⟨.MesalinkErrorMalformedObject⟩ ∧
    inner_mesalink_ssl_connect_ptr 7 testOps (fun _ _ => 0) (fun _ => true)
        4 4 .null
      = some (.error ⟨.MesalinkErrorNullPointer⟩, .null) :=
  ⟨(sanitize_ptr_spec (α := Unit) Nat Nat 7 testOps (fun _ _ => 0)
      (fun _ => 0) (fun _ => true) (fun _ => none) (fun _ => true)
      4 4 [] 1 none none none none false 0).2.1 ⟨9, ()⟩ (by decide),
   (sanitize_ptr_spec (α := Unit) Nat Nat 7 testOps (fun _ _ => 0)
      (fun _ => 0) (fun _ => true) (fun _ => none) (fun _ => true)
      4 4 [] 1 none none none none false 0).2.2.2.2.2.2.2.2.2.2.2.2.1
      ⟨.MesalinkErrorNullPointer⟩ .null rfl⟩

/-- C9: for every verify mode other than `VerifyNone` (0),
`SSL_CTX_set_verify` returns `SSL_SUCCESS` and leaves the whole context
— in particular both configurations — unchanged; mode `VerifyNone`
installs the permissive `NoServerAuth` verifier on the client
configuration and touches nothing else. -/
theorem ctx_set_verify_spec (ctx : MESALINK_CTX) (mode : Int) :
    (mode ≠ VerifyNone →
      inner_mesalink_ssl_ctx_set_verify mode ctx = (.ok SSL_SUCCESS, ctx)) ∧
    (mode = VerifyNone →
      inner_mesalink_ssl_ctx_set_verify mode ctx
        = (.ok SSL_SUCCESS,
           { ctx with client_config := { ctx.client_config with verifier := .noServerAuth } })) := by
  constructor
  · intro hne
    simp [inner_mesalink_ssl_ctx_set_verify, hne]
  · intro he
    simp [inner_mesalink_ssl_ctx_set_verify, he]

/-- Witness for C9: mode `VerifyPeer` (1) at a concrete context. -/
theorem ctx_set_verify_spec_witness :
    inner_mesalink_ssl_ctx_set_verify 1 testCtx = (.ok SSL_SUCCESS, testCtx) :=
  (ctx_set_verify_spec testCtx 1).1 (by decide)

/-- C10: a key of length greater than 2 beginning with the bytes `kx`
is accepted by `put` without being stored — the wrapped cache is
unchanged, so a `get` for that key afterwards returns exactly what it
returned before (in particular `none` when nothing else stored it);
every other key-value pair is delegated to the wrapped bounded cache. -/
theorem cache_put_spec {γ : Type} (inner : StoresClientSessions γ) (c : γ)
    (key value : List Nat) :
    (2 < key.length ∧ key.getD 0 0 = 107 ∧ key.getD 1 0 = 120 →
      mesalinkCachePut inner c key value = (true, c) ∧
      mesalinkCacheGet inner (mesalinkCachePut inner c key value).2 key
        = mesalinkCacheGet inner c key ∧
      (mesalinkCacheGet inner c key = none →
        mesalinkCacheGet inner (mesalinkCachePut inner c key value).2 key = none)) ∧
    (¬(2 < key.length ∧ key.getD 0 0 = 107 ∧ key.getD 1 0 = 120) →
      mesalinkCachePut inner c key value = inner.putOp c key value) := by
  constructor
  · rintro ⟨h1, h2, h3⟩
    have hb : isKxKey key = true := by
      simp only [isKxKey, Bool.and_eq_true, decide_eq_true_eq, beq_iff_eq]
      exact ⟨⟨h1, h2⟩, h3⟩
    have hc : mesalinkCachePut inner c key value = (true, c) := by
      simp [mesalinkCachePut, hb]
    refine ⟨hc, ?_, ?_⟩
    · rw [hc]
    · intro hn; rw [hc]; exact hn
  · intro hn
    have hb : isKxKey key = false := by
      cases hxk : isKxKey key
      · rfl
      · simp only [isKxKey, Bool.and_eq_true, decide_eq_true_eq, beq_iff_eq] at hxk
        exact absurd ⟨hxk.1.1, hxk.1.2, hxk.2⟩ hn
    simp [mesalinkCachePut, hb]

/-- Witness for C10: the concrete key `kx1` on the concrete
association-list cache. -/
theorem cache_put_spec_witness :
    mesalinkCachePut testStore [] [107, 120, 1] [5] = (true, []) ∧
    mesalinkCacheGet testStore (mesalinkCachePut testStore [] [107, 120, 1] [5]).2 [107, 120, 1]
      = mesalinkCacheGet testStore [] [107, 120, 1] ∧
    (mesalinkCacheGet testStore [] [107, 120, 1] = none →
      mesalinkCacheGet testStore (mesalinkCachePut testStore [] [107, 120, 1] [5]).2 [107, 120, 1] = none) :=
  (cache_put_spec testStore [] [107, 120, 1] [5]).1 (by decide)

/-- Counterexample for C8: on a valid connection handle, a null name
pointer fails with `NullPointer`, not with the `BadFuncArg` the claim
asserts for every illegal input "including a null name pointer"
(`ssl.rs` lines 1271-1272). -/
theorem set_hostname_null_is_nullpointer :
    (inner_mesalink_ssl_set_tlsext_host_name (σ := Nat) (τ := Nat)
        (fun _ => none) (fun _ => true) testConn none).1
      = .error ⟨.MesalinkErrorNullPointer⟩ ∧
    (MesalinkError.mk .MesalinkErrorNullPointer) ≠ ⟨.MesalinkErrorBadFuncArg⟩ :=
  ⟨rfl, by decide⟩

/-- C8 (amended): a syntactically legal DNS name is stored and the call
succeeds; a null name pointer fails with `NullPointer`; every other
illegal input (undecodable bytes, illegal DNS syntax) fails with
`BadFuncArg`.  The connection is unchanged on every failure. -/
theorem set_hostname_spec {σ τ : Type} (u : List Nat → Option String)
    (d : String → Bool) (ssl : SSLConn σ τ) (p : Option (List Nat)) :
    (p = none →
      inner_mesalink_ssl_set_tlsext_host_name u d ssl p
        = (.error ⟨.MesalinkErrorNullPointer⟩, ssl)) ∧
    (∀ bs, p = some bs → u bs = none →
      inner_mesalink_ssl_set_tlsext_host_name u d ssl p
        = (.error ⟨.MesalinkErrorBadFuncArg⟩, ssl)) ∧
    (∀ bs hn, p = some bs → u bs = some hn → d hn = false →
      inner_mesalink_ssl_set_tlsext_host_name u d ssl p
        = (.error ⟨.MesalinkErrorBadFuncArg⟩, ssl)) ∧
    (∀ bs hn, p = some bs → u bs = some hn → d hn = true →
      inner_mesalink_ssl_set_tlsext_host_name u d ssl p
        = (.ok SSL_SUCCESS, { ssl with hostname := some hn })) := by
  refine ⟨?_, ?_, ?_, ?_⟩
  · intro hp; subst hp; rfl
  · intro bs hp hu; subst hp
    simp [inner_mesalink_ssl_set_tlsext_host_name, hu]
  · intro bs hn hp hu hd; subst hp
    simp [inner_mesalink_ssl_set_tlsext_host_name, hu, hd]
  · intro bs hn hp hu hd; subst hp
    simp [inner_mesalink_ssl_set_tlsext_host_name, hu, hd]

/-- Witness for C8 (amended): a legal name stored on a concrete
connection. -/
theorem set_hostname_spec_witness :
    inner_mesalink_ssl_set_tlsext_host_name (σ := Nat) (τ := Nat)
        (fun _ => some "localhost") (fun _ => true) testConn (some [108])
      = (.ok SSL_SUCCESS, { testConn with hostname := some "localhost" }) :=
  (set_hostname_spec (σ := Nat) (τ := Nat) (fun _ => some "localhost")
    (fun _ => true) testConn (some [108])).2.2.2 [108] "localhost" rfl rfl rfl

/-- Reading the cell of a freed allocation: the bytes are retained, only
the free count moves. -/
theorem heapFind_heapFree (h : MethodHeap) (a : Nat) (cell : MethodCell)
    (hfind : heapFind h a = some cell) :
    heapFind (heapFree h a) a
      = some { cell with freeCount := cell.freeCount + 1 } := by
  induction h with
  | nil => simp [heapFind] at hfind
  | cons p rest ih =>
    obtain ⟨b, c⟩ := p
    rw [show heapFree ((b, c) :: rest) a
        = (if b = a then (b, { c with freeCount := c.freeCount + 1 }) else (b, c))
            :: heapFree rest a from rfl]
    rw [show heapFind ((b, c) :: rest) a
        = if b = a then some c else heapFind rest a from rfl] at hfind
    by_cases hba : b = a
    · rw [if_pos hba] at hfind ⊢
      injection hfind with hc
      rw [show heapFind ((b, { c with freeCount := c.freeCount + 1 })
            :: heapFree rest a) a
          = if b = a then some { c with freeCount := c.freeCount + 1 }
            else heapFind (heapFree rest a) a from rfl]
      rw [if_pos hba, hc]
    · rw [if_neg hba] at hfind ⊢
      rw [show heapFind ((b, c) :: heapFree rest a) a
          = if b = a then some c else heapFind (heapFree rest a) a from rfl]
      rw [if_neg hba]
      exact ih hfind

/-- Counterexample for C6: a method allocation that has already been
consumed (freed once) but whose bytes — including the magic tag — are
intact is accepted again by `SSL_CTX_new`: the call succeeds and frees
it a second time (free count 2, a double free), so reuse after
consumption is neither rejected nor structurally impossible; the source
merely documents "do NOT reuse" (`ssl.rs` lines 104-107). -/
theorem ctx_new_reuse_not_rejected :
    inner_mesalink_ssl_ctx_new 7
        [(1, { freeCount := 1, content := ⟨7, testMethod⟩ })] (some 1)
      = some (.ok (MESALINK_CTX.new testMethod),
              [(1, { freeCount := 2, content := ⟨7, testMethod⟩ })]) := by
  rfl

/-- C6 (amended): context creation from a valid method descriptor frees
the descriptor exactly once (free count incremented by one) and
restricts both the client and the server configuration to exactly the
descriptor's versions; but reuse of the same pointer after consumption
is not rejected — while the freed bytes hold the tag, a second call
succeeds and frees the allocation again (use of a freed descriptor is
undefined behavior the source only documents against). -/
theorem ctx_new_spec (magic : Nat) (h : MethodHeap) (a : Nat)
    (cell : MethodCell) (hfind : heapFind h a = some cell)
    (hmagic : cell.content.magic = magic) :
    inner_mesalink_ssl_ctx_new magic h (some a)
      = some (.ok (MESALINK_CTX.new cell.content.obj), heapFree h a) ∧
    (MESALINK_CTX.new cell.content.obj).client_config.versions
      = cell.content.obj.versions ∧
    (MESALINK_CTX.new cell.content.obj).server_config.versions
      = cell.content.obj.versions ∧
    heapFind (heapFree h a) a
      = some { cell with freeCount := cell.freeCount + 1 } ∧
    inner_mesalink_ssl_ctx_new magic (heapFree h a) (some a)
      = some (.ok (MESALINK_CTX.new cell.content.obj),
              heapFree (heapFree h a) a) := by
  have hb : (cell.content.magic == magic) = true := by simp [hmagic]
  have hfree := heapFind_heapFree h a cell hfind
  refine ⟨?_, rfl, rfl, hfree, ?_⟩
  · simp [inner_mesalink_ssl_ctx_new, hfind, sanitize_const_ptr_for_ref,
      sanitize_ptr_for_mut_ref, checkMagic, hb]
  · simp [inner_mesalink_ssl_ctx_new, hfree, sanitize_const_ptr_for_ref,
      sanitize_ptr_for_mut_ref, checkMagic, hb]

/-- Witness for C6 (amended): a live (never-freed) concrete method cell
consumed by a first call. -/
theorem ctx_new_spec_witness :
    inner_mesalink_ssl_ctx_new 7
        [(1, { freeCount := 0, content := ⟨7, testMethod⟩ })] (some 1)
      = some (.ok (MESALINK_CTX.new testMethod),
              heapFree [(1, { freeCount := 0, content := ⟨7, testMethod⟩ })] 1) :=
  (ctx_new_spec 7 [(1, { freeCount := 0, content := ⟨7, testMethod⟩ })] 1
    { freeCount := 0, content := ⟨7, testMethod⟩ } rfl rfl).1

/-- C7: a connection created from a context carries its own clone of the
context's client and server configurations; the three context mutators
(changing the verify mode, loading a certificate chain, loading a
private key) produce a changed context while the connection's snapshot
keeps the values taken at creation, so the mutation is never observed
through the already-created connection. -/
theorem ssl_new_snapshot_spec (σ τ : Type) (ctx : MESALINK_CTX)
    (certs keys : List Nat) (k : Nat) :
    ((SSLConn.new σ τ ctx).client_config = ctx.client_config) ∧
    ((SSLConn.new σ τ ctx).server_config = ctx.server_config) ∧
    ((SSLConn.new σ τ ctx).context = some ctx) ∧
    (ctx.client_config.verifier = .webpkiVerifier →
      (inner_mesalink_ssl_ctx_set_verify VerifyNone ctx).2.client_config.verifier
          = .noServerAuth ∧
      (SSLConn.new σ τ ctx).client_config.verifier = .webpkiVerifier) ∧
    (ctx.server_config.identity = none → ctx.private_key = some k →
      0 < certs.length →
      (inner_mesalink_ssl_ctx_use_certificate_chain ctx (some certs)).2.server_config.identity
          = some (certs, k) ∧
      (SSLConn.new σ τ ctx).server_config.identity = none) ∧
    (ctx.server_config.identity = none → ctx.certificates = some certs →
      0 < keys.length →
      (inner_mesalink_ssl_ctx_use_privatekey ctx none (some keys)).2.server_config.identity
          = some (certs, keys.headD 0) ∧
      (SSLConn.new σ τ ctx).server_config.identity = none) := by
  refine ⟨rfl, rfl, rfl, ?_, ?_, ?_⟩
  · intro hv
    exact ⟨by simp [inner_mesalink_ssl_ctx_set_verify, VerifyNone], by simpa [SSLConn.new] using hv⟩
  · intro hid hk hlen
    constructor
    · have hne : ¬(certs.length = 0) := Nat.pos_iff_ne_zero.mp hlen
      simp [inner_mesalink_ssl_ctx_use_certificate_chain, hne,
        updateServerIdentity, try_get_context_certs_and_key, hk]
    · simpa [SSLConn.new] using hid
  · intro hid hc hlen
    constructor
    · simp [inner_mesalink_ssl_ctx_use_privatekey, hlen,
        updateServerIdentity, try_get_context_certs_and_key, hc]
    · simpa [SSLConn.new] using hid

/-- Witness for C7: the verify-mode mutation on a concrete context. -/
theorem ssl_new_snapshot_spec_witness :
    (inner_mesalink_ssl_ctx_set_verify VerifyNone testCtx).2.client_config.verifier
        = .noServerAuth ∧
    (SSLConn.new Nat Nat testCtx).client_config.verifier = .webpkiVerifier :=
  (ssl_new_snapshot_spec Nat Nat testCtx [] [] 0).2.2.2.1 rfl

/-- C4: the handshake driver loop terminates exactly as enumerated.
(i) A transport write error in the drain terminates with that mapped
error.  (ii) On a pure flush call (`until_handshaked = false`), any
bytes written in step 1 terminate the loop with success immediately.
(iii) A transport read error terminates with that mapped error.  (iv) A
packet-processing error first drains pending engine output and flushes
the transport, then terminates with the mapped protocol error.  (v)
After successful processing: handshaking-on-entry and no longer
handshaking terminates with success; a pure flush call terminates with
success; end-of-stream while still handshaking terminates with
`UnexpectedEof`; otherwise the loop repeats — witnessed by the outer
loop recursing on the `next` outcome. -/
theorem handshake_step_spec {σ τ : Type} (ops : SessionOps σ τ)
    (dfuel : Nat) (untilHs eof : Bool) (rdlen wrlen : Nat) (s : σ) (t : τ) :
    (∀ e s1 t1, drainWrites ops dfuel wrlen s t = .fail e s1 t1 →
      hsStep ops dfuel untilHs eof rdlen wrlen s t
        = .done (.error ⟨ErrorCode.fromIo e⟩) s1 t1) ∧
    (∀ wr1 s1 t1, drainWrites ops dfuel wrlen s t = .ok wr1 s1 t1 →
      untilHs = false → 0 < wr1 →
      hsStep ops dfuel untilHs eof rdlen wrlen s t
        = .done (.ok (rdlen, wr1)) s1 t1) ∧
    (∀ wr1 s1 t1 e, drainWrites ops dfuel wrlen s t = .ok wr1 s1 t1 →
      ¬(untilHs = false ∧ 0 < wr1) →
      hsReadPhase ops eof rdlen s1 t1 = .error e →
      hsStep ops dfuel untilHs eof rdlen wrlen s t
        = .done (.error ⟨ErrorCode.fromIo e⟩) s1 t1) ∧
    (∀ wr1 s1 t1 eof2 rd2 s2 t2 te s3 w2 s4 t4 t5,
      drainWrites ops dfuel wrlen s t = .ok wr1 s1 t1 →
      ¬(untilHs = false ∧ 0 < wr1) →
      hsReadPhase ops eof rdlen s1 t1 = .ok (eof2, rd2, s2, t2) →
      ops.process_new_packets s2 = (some te, s3) →
      drainWrites ops dfuel 0 s3 t2 = .ok w2 s4 t4 →
      ops.flushTransport t4 = .ok t5 →
      hsStep ops dfuel untilHs eof rdlen wrlen s t
        = .done (.error ⟨ErrorCode.fromTls te⟩) s4 t5) ∧
    (∀ wr1 s1 t1 eof2 rd2 s2 t2 s3,
      drainWrites ops dfuel wrlen s t = .ok wr1 s1 t1 →
      ¬(untilHs = false ∧ 0 < wr1) →
      hsReadPhase ops eof rdlen s1 t1 = .ok (eof2, rd2, s2, t2) →
      ops.process_new_packets s2 = (none, s3) →
      ((untilHs = true → ops.is_handshaking s3 = false →
        hsStep ops dfuel untilHs eof rdlen wrlen s t
          = .done (.ok (rd2, wr1)) s3 t2) ∧
       (untilHs = false →
        hsStep ops dfuel untilHs eof rdlen wrlen s t
          = .done (.ok (rd2, wr1)) s3 t2) ∧
       (eof2 = true → untilHs = true → ops.is_handshaking s3 = true →
        hsStep ops dfuel untilHs eof rdlen wrlen s t
          = .done (.error ⟨.IoErrorUnexpectedEof⟩) s3 t2) ∧
       (eof2 = false → untilHs = true → ops.is_handshaking s3 = true →
        hsStep ops dfuel untilHs eof rdlen wrlen s t
          = .next eof2 rd2 wr1 s3 t2))) ∧
    (∀ fuel eof2 rd2 wr2 s2 t2,
      hsStep ops dfuel untilHs eof rdlen wrlen s t = .next eof2 rd2 wr2 s2 t2 →
      completeHandshakeLoop ops dfuel untilHs (fuel + 1) eof rdlen wrlen s t
        = completeHandshakeLoop ops dfuel untilHs fuel eof2 rd2 wr2 s2 t2) := by
  refine ⟨?_, ?_, ?_, ?_, ?_, ?_⟩
  · intro e s1 t1 hd
    simp [hsStep, hd]
  · intro wr1 s1 t1 hd hu hw
    subst hu
    simp [hsStep, hd, hw]
  · intro wr1 s1 t1 e hd hg hr
    simp [hsStep, hd, if_neg hg, hr]
  · intro wr1 s1 t1 eof2 rd2 s2 t2 te s3 w2 s4 t4 t5 hd hg hr hp hd2 hf
    simp [hsStep, hd, if_neg hg, hr, hp, hd2, hf]
  · intro wr1 s1 t1 eof2 rd2 s2 t2 s3 hd hg hr hp
    refine ⟨?_, ?_, ?_, ?_⟩
    · intro hu hhs
      subst hu
      simp [hsStep, hd, if_neg hg, hr, hp, hhs]
    · intro hu
      subst hu
      have hw0 : ¬(0 < wr1) := fun hw => hg ⟨rfl, hw⟩
      cases hhs : ops.is_handshaking s3 <;>
        simp [hsStep, hd, hw0, hr, hp, hhs]
    · intro he hu hhs
      subst he; subst hu
      simp [hsStep, hd, if_neg hg, hr, hp, hhs]
    · intro he hu hhs
      subst he; subst hu
      simp [hsStep, hd, if_neg hg, hr, hp, hhs]
  · intro fuel eof2 rd2 wr2 s2 t2 hstep
    simp [completeHandshakeLoop, hstep]

/-- Witness for C4: the scripted engine completes the handshake in one
iteration — in state `0` the driver reads five bytes, processing leaves
state `1`, which is no longer handshaking, so the step terminates with
success. -/
theorem handshake_step_spec_witness :
    hsStep testOps 4 true false 0 0 0 0 = .done (.ok (5, 0)) 1 0 :=
  ((handshake_step_spec testOps 4 true false 0 0 0 0).2.2.2.2.1
    0 0 0 false 5 1 0 1 rfl (by simp) rfl rfl).1 rfl rfl

/-- C5: on a read call against a connection with a live session and
transport whose session yields zero plaintext bytes and whose engine
does not want to write: (a) if the engine wants to read and the
transport read returns zero bytes while the session is not
mid-handshake, the call returns zero bytes and sets the end-of-stream
flag; (b) in the same situation mid-handshake it fails with
`UnexpectedEof` recorded as the last error; (c) a would-block on that
transport read records `WantRead` as the last error and returns the
would-block error with the session kept and the end-of-stream flag
untouched; (d) if the engine wants neither read nor write, the call
returns zero bytes with `ZeroReturn` as the last error, not a hard
error. -/
theorem ssl_read_spec {σ τ : Type} (ops : SessionOps σ τ)
    (fuel dfuel bl : Nat) (conn : SSLConn σ τ) (q : ErrorQueue)
    (s : σ) (t : τ) (s1 : σ)
    (hs : conn.session = some s) (ht : conn.io = some t)
    (herr : conn.error = .MesalinkErrorNone)
    (hrp : ops.readPlain s bl = .ok (0, s1))
    (hww : ops.wants_write s1 = false) :
    (∀ s2 t2, ops.wants_read s1 = true →
      ops.read_tls s1 t = .ok (0, s2, t2) →
      ops.is_handshaking s2 = false →
      ssl_read_impl ops (fuel + 1) dfuel bl conn q
        = .ok 0
            { conn with
              session := some s2
              io := some t2
              error := .MesalinkErrorNone
              eof := true } q) ∧
    (∀ s2 t2, ops.wants_read s1 = true →
      ops.read_tls s1 t = .ok (0, s2, t2) →
      ops.is_handshaking s2 = true →
      ssl_read_impl ops (fuel + 1) dfuel bl conn q
        = .fail .unexpectedEof
            { conn with
              session := some s2
              io := some t2
              error := .IoErrorUnexpectedEof } (q.push ⟨.IoErrorUnexpectedEof⟩)) ∧
    (ops.wants_read s1 = true →
      ops.read_tls s1 t = .error .wouldBlock →
      ssl_read_impl ops (fuel + 1) dfuel bl conn q
        = .fail .wouldBlock
            { conn with
              session := some s1
              io := some t
              error := .MesalinkErrorWantRead } (q.push ⟨.MesalinkErrorWantRead⟩)) ∧
    (ops.wants_read s1 = false →
      ssl_read_impl ops (fuel + 1) dfuel bl conn q
        = .ok 0
            { conn with
              session := some s1
              io := some t
              error := .MesalinkErrorZeroReturn } (q.push ⟨.MesalinkErrorZeroReturn⟩)) := by
  refine ⟨?_, ?_, ?_, ?_⟩
  · intro s2 t2 hwr hrt hhs
    simp [ssl_read_impl, hs, ht, sslReadLoop, sslReadStep, herr, hrp, hww,
      hwr, hrt, hhs]
  · intro s2 t2 hwr hrt hhs
    simp [ssl_read_impl, hs, ht, sslReadLoop, sslReadStep, herr, hrp, hww,
      hwr, hrt, hhs]
  · intro hwr hrt
    simp [ssl_read_impl, hs, ht, sslReadLoop, sslReadStep, herr, hrp, hww,
      hwr, hrt]
  · intro hwr
    simp [ssl_read_impl, hs, ht, sslReadLoop, sslReadStep, herr, hrp, hww, hwr]

/-- Witness for C5: clean EOF on the scripted engine — state `10` wants
a transport read, the transport yields zero bytes, and the resulting
state `11` is not handshaking, so the call returns zero bytes and sets
the end-of-stream flag. -/
theorem ssl_read_spec_witness :
    ssl_read_impl testOps 1 4 64
        { testConn with session := some 10 } []
      = .ok 0
          { testConn with
            session := some 11
            io := some 0
            error := .MesalinkErrorNone
            eof := true } [] :=
  (ssl_read_spec testOps 0 4 64 { testConn with session := some 10 } []
    10 0 10 rfl rfl rfl rfl rfl).1 11 0 rfl rfl rfl

/-- C3: for a handshake call (connect or accept) that reaches the
driver (hostname present and legal for connect, transport attached):
when the driver fails, the call stores no session — the session slot is
exactly what it was — and records the mapped cause in the connection's
last-error slot; when the driver succeeds, a live session is stored and
the negotiated ciphersuite and protocol version the engine reports for
it become queryable through the cipher/version entry points. -/
theorem connect_accept_spec {σ τ : Type} (ops : SessionOps σ τ)
    (newClient : ClientConfig → String → σ) (newServer : ServerConfig → σ)
    (dnsValid : String → Bool) (fuel dfuel : Nat) (ssl : SSLConn σ τ)
    (hn : String) (t0 : τ)
    (hhost : ssl.hostname = some hn) (hdns : dnsValid hn = true)
    (hio : ssl.io = some t0) :
    (∀ e r,
      inner_mesalink_ssl_connect ops newClient dnsValid fuel dfuel ssl
        = some (.error e, r) →
      r.session = ssl.session ∧ r.error = e.code) ∧
    (∀ rv conn',
      inner_mesalink_ssl_connect ops newClient dnsValid fuel dfuel ssl
        = some (.ok rv, conn') →
      rv = SSL_SUCCESS ∧ ∃ sF, conn'.session = some sF ∧
        (∀ cs, ops.get_negotiated_ciphersuite sF = some cs →
          inner_mesalink_ssl_get_current_cipher ops conn' = .ok cs) ∧
        (∀ v, ops.get_protocol_version sF = some v →
          ∃ vs, inner_mesalink_ssl_get_version ops conn' = .ok vs)) ∧
    (∀ e r,
      inner_mesalink_ssl_accept ops newServer fuel dfuel ssl
        = some (.error e, r) →
      r.session = ssl.session ∧ r.error = e.code) ∧
    (∀ rv conn',
      inner_mesalink_ssl_accept ops newServer fuel dfuel ssl
        = some (.ok rv, conn') →
      rv = SSL_SUCCESS ∧ ∃ sF, conn'.session = some sF ∧
        (∀ cs, ops.get_negotiated_ciphersuite sF = some cs →
          inner_mesalink_ssl_get_current_cipher ops conn' = .ok cs) ∧
        (∀ v, ops.get_protocol_version sF = some v →
          ∃ vs, inner_mesalink_ssl_get_version ops conn' = .ok vs)) := by
  refine ⟨?_, ?_, ?_, ?_⟩
  · intro e r hEq
    rcases hdrv : complete_handshake_io ops fuel dfuel (newClient ssl.client_config hn) t0
      with _ | ⟨e1, s1, t1⟩ | _ <;>
      simp [inner_mesalink_ssl_connect, hhost, hdns, hio, hdrv] at hEq
    obtain ⟨he, hr⟩ := hEq
    injection he with he1
    subst he1
    rw [← hr]
    exact ⟨rfl, rfl⟩
  · intro rv conn' hEq
    rcases hdrv : complete_handshake_io ops fuel dfuel (newClient ssl.client_config hn) t0
      with ⟨rd1, wr1, s1, t1⟩ | _ | _ <;>
      simp [inner_mesalink_ssl_connect, hhost, hdns, hio, hdrv] at hEq
    obtain ⟨hrv, hconn⟩ := hEq
    injection hrv with hrv1
    subst hrv1
    refine ⟨rfl, s1, ?_, ?_, ?_⟩
    · rw [← hconn]
    · intro cs hcs
      rw [← hconn]
      simp [inner_mesalink_ssl_get_current_cipher, hcs]
    · intro v hv
      rw [← hconn]
      cases v <;>
        simp [inner_mesalink_ssl_get_version, hv]
  · intro e r hEq
    rcases hdrv : complete_handshake_io ops fuel dfuel (newServer ssl.server_config) t0
      with _ | ⟨e1, s1, t1⟩ | _ <;>
      simp [inner_mesalink_ssl_accept, hio, hdrv] at hEq
    obtain ⟨he, hr⟩ := hEq
    injection he with he1
    subst he1
    rw [← hr]
    exact ⟨rfl, rfl⟩
  · intro rv conn' hEq
    rcases hdrv : complete_handshake_io ops fuel dfuel (newServer ssl.server_config) t0
      with ⟨rd1, wr1, s1, t1⟩ | _ | _ <;>
      simp [inner_mesalink_ssl_accept, hio, hdrv] at hEq
    obtain ⟨hrv, hconn⟩ := hEq
    injection hrv with hrv1
    subst hrv1
    refine ⟨rfl, s1, ?_, ?_, ?_⟩
    · rw [← hconn]
    · intro cs hcs
      rw [← hconn]
      simp [inner_mesalink_ssl_get_current_cipher, hcs]
    · intro v hv
      rw [← hconn]
      cases v <;>
        simp [inner_mesalink_ssl_get_version, hv]

/-- Witness for C3: a successful concrete connect on the scripted
engine, whose final session `1` carries ciphersuite `0xcca8` and
TLS 1.3. -/
theorem connect_accept_spec_witness :
    SSL_SUCCESS = SSL_SUCCESS ∧
    ∃ sF, (SSLConn.mk (σ := Nat) (τ := Nat) testConn.context
          testConn.client_config testConn.server_config testConn.hostname
          (some 0) (some 1) testConn.error testConn.eof).session = some sF ∧
      (∀ cs, testOps.get_negotiated_ciphersuite sF = some cs →
        inner_mesalink_ssl_get_current_cipher testOps
          (SSLConn.mk testConn.context testConn.client_config
            testConn.server_config testConn.hostname (some 0) (some 1)
            testConn.error testConn.eof) = .ok cs) ∧
      (∀ v, testOps.get_protocol_version sF = some v →
        ∃ vs, inner_mesalink_ssl_get_version testOps
          (SSLConn.mk testConn.context testConn.client_config
            testConn.server_config testConn.hostname (some 0) (some 1)
            testConn.error testConn.eof) = .ok vs) :=
  (connect_accept_spec testOps (fun _ _ => 0) (fun _ => 0) (fun _ => true)
    4 4 testConn "localhost" 0 rfl rfl rfl).2.1 SSL_SUCCESS
    (SSLConn.mk testConn.context testConn.client_config
      testConn.server_config testConn.hostname (some 0) (some 1)
      testConn.error testConn.eof) rfl

end Claims

end Mesalink
